import Mathlib

/-!
Verification of the Mic Roster scraper (`mic_roster_selenium.py`) against its
natural-language specification.

The Python module is shallowly embedded: rendered HTML pages become an abstract
query structure (`RenderedDocument`) exposing exactly the lookups the code
performs, Python strings that undergo character-level operations become
`List Char`, exceptions become `Except`/`Option` results, and the Selenium
automation channel becomes an oracle (`Channel`) supplying the document each
browser interaction would yield (`none` when the awaited element never
appears, which in Python raises a selenium exception).
-/

namespace MicRoster

/-- Raised by Python attribute access on an object lacking the attribute,
e.g. `None.get(...)` or `str.text`. -/
inductive PyError where
  | attributeError
deriving DecidableEq

/-- Abstract view of one parsed page, exposing the three kinds of lookup the
scraper performs on a BeautifulSoup object:
  * `monthHeading`: the stripped text of the span with id
    `ctl00_ContentPlaceHolder1_calendar_lblCurrentMonth`, when that span exists;
  * `cells`: for each grid position `n` at which a `td` with id
    `ctl00_ContentPlaceHolder1_calendar_DateCell{n}` exists, the stripped text
    of its nested `div` (or `none` when the td has no `div`);
  * `inputs`: for each `input` element name present, its `value` attribute
    (or `none` when the tag has no `value` attribute). -/
structure RenderedDocument where
  monthHeading : Option String
  cells : List (Nat × Option (List Char))
  inputs : List (String × Option (List Char))
deriving DecidableEq

/-- `soup.find('td', id=DateCell{n})`: `none` when no such td exists. -/
def findTd (doc : RenderedDocument) (n : Nat) : Option (Option (List Char)) :=
  (doc.cells.find? (fun p => p.1 == n)).map (fun p => p.2)

/-- `soup.find('input', name=fieldName)`: `none` when no such input exists. -/
def findInput (doc : RenderedDocument) (name : String) :
    Option (Option (List Char)) :=
  (doc.inputs.find? (fun p => p.1 == name)).map (fun p => p.2)

/-- A document with no heading, no cells and no form fields. -/
def emptyDoc : RenderedDocument := ⟨none, [], []⟩

/-! ### make_soup -/

/-- The two input shapes `make_soup` accepts: a requests `Response` (which
exposes a `.text` attribute holding the markup) or a raw markup string
(which has no `.text` attribute). -/
inductive SoupInput where
  | withText (t : List Char)
  | rawString (s : List Char)
deriving DecidableEq

/-- `BeautifulSoup(markup, 'html.parser')`: the parsed document, modelled as a
wrapper of the markup it was built from (the query structure derived from it
is modelled separately as `RenderedDocument`). -/
structure ParsedSoup where
  markup : List Char
deriving DecidableEq

/-- Python attribute access `response.text`: succeeds on a Response object,
raises `AttributeError` on a plain string. -/
def getTextAttr : SoupInput → Except PyError (List Char)
  | SoupInput.withText t => Except.ok t
  | SoupInput.rawString _ => Except.error PyError.attributeError

/-- `BeautifulSoup(h, 'html.parser')`. -/
def parseHtml (h : List Char) : ParsedSoup := ⟨h⟩

/-- Embeds `make_soup` (mic_roster_selenium.py lines 61-81): try
`BeautifulSoup(response.text, ...)`; on `AttributeError` fall back to
`BeautifulSoup(response, ...)`, i.e. parse the raw string itself. -/
def make_soup (r : SoupInput) : Except PyError ParsedSoup :=
  match getTextAttr r with
  | Except.ok t => Except.ok (parseHtml t)
  | Except.error PyError.attributeError =>
    match r with
    | SoupInput.withText t => Except.ok (parseHtml t)
    | SoupInput.rawString s => Except.ok (parseHtml s)

/-! ### get_view_event -/

/-- Embeds `get_view_event` (lines 84-104):
`soup.find('input', {'name': '__VIEWSTATE'}).get('value')` and likewise for
`__EVENTVALIDATION`.  When `find` returns `None`, the `.get('value')` call
raises `AttributeError`; otherwise it yields the tag's value attribute. -/
def get_view_event (doc : RenderedDocument) :
    Except PyError (Option (List Char) × Option (List Char)) :=
  match findInput doc "__VIEWSTATE" with
  | none => Except.error PyError.attributeError
  | some v =>
    match findInput doc "__EVENTVALIDATION" with
    | none => Except.error PyError.attributeError
    | some e => Except.ok (v, e)

/-! ### Shift-text normalization -/

/-- `s.replace(")", ") ")` for the single-character pattern `")"`: a space is
inserted immediately after every occurrence of the closing parenthesis. -/
def insertSpaceAfterParens : List Char → List Char
  | [] => []
  | c :: rest =>
    if c = ')' then c :: ' ' :: insertSpaceAfterParens rest
    else c :: insertSpaceAfterParens rest

/-- Embeds line 163:
`cell_text.replace(")", ") ") if ")" in cell_text else cell_text`. -/
def normalizeShiftText (s : List Char) : List Char :=
  if s.contains ')' then insertSpaceAfterParens s else s

/-- Checks that every `)` in the list is immediately followed by a space
(so in particular no `)` is the last character). -/
def spacedAfterParens : List Char → Bool
  | [] => true
  | [c] => !(c == ')')
  | c :: d :: rest => (!(c == ')') || d == ' ') && spacedAfterParens (d :: rest)

/-- Removes one space directly after each `)`: the left inverse of
`insertSpaceAfterParens`, used to state that the spaces were *inserted*. -/
def stripSpaceAfterParens : List Char → List Char
  | [] => []
  | [c] => [c]
  | c :: d :: rest =>
    if c = ')' ∧ d = ' ' then c :: stripSpaceAfterParens rest
    else c :: stripSpaceAfterParens (d :: rest)

/-! ### process_response_cal -/

/-- One emitted shift line (`print(f"{d} {month}:  Shift: {cell_text}")`),
kept structured: the grid position (`cell`, the loop variable at the moment
of emission), the day number printed, the month heading printed (`none`
prints as Python `None`) and the normalized shift text. -/
structure DayShift where
  cell : Nat
  day : Nat
  month : Option String
  text : List Char
deriving DecidableEq

/-- The loop state of `process_response_cal`: the `date` counter, the
`cell_data` dict (write-only in the source; modelled as an association list
with overwrite-on-assignment), and the shift lines emitted so far. -/
structure ExtractState where
  date : Nat
  cellData : List (Nat × List Char)
  emitted : List DayShift
deriving DecidableEq

/-- Python dict assignment `m[k] = v` (insertion order of the association
list is not relied upon: the dict is never read back in the source). -/
def dictSet (m : List (Nat × List Char)) (k : Nat) (v : List Char) :
    List (Nat × List Char) :=
  m.filter (fun p => !(p.1 == k)) ++ [(k, v)]

/-- The grid positions scanned by `process_response_cal`: Python
`range(1, 40)`, i.e. 1..39 in ascending order. -/
def scanRange : List Nat := List.range' 1 39

/-- One iteration of the cell loop (lines 157-171): look up the td at this
grid position; if absent, do nothing; otherwise read the nested div's text
(`""` when no div), normalize it, store it in `cell_data` under the current
`date`, and when non-empty print the shift line and advance `date`. -/
def processCell (doc : RenderedDocument) (month : Option String)
    (st : ExtractState) (cell : Nat) : ExtractState :=
  match findTd doc cell with
  | none => st
  | some divText =>
    let cellText := normalizeShiftText (divText.getD [])
    let st := { st with cellData := dictSet st.cellData st.date cellText }
    if cellText.isEmpty then st
    else
      { st with
        emitted := st.emitted ++ [⟨cell, st.date, month, cellText⟩],
        date := st.date + 1 }

/-- The result of one `process_response_cal` call: the month heading it
printed (or `none`), the final `cell_data`, and the emitted shift lines. -/
structure ExtractResult where
  month : Option String
  cellData : List (Nat × List Char)
  emitted : List DayShift
deriving DecidableEq

/-- Embeds `process_response_cal` (lines 131-171): read the month-heading
span (`month = None` when the span is absent — the function does not fail),
then fold the cell loop over grid positions 1..39 starting from `date = 1`. -/
def process_response_cal (doc : RenderedDocument) : ExtractResult :=
  let month := doc.monthHeading
  let st := scanRange.foldl (processCell doc month) ⟨1, [], []⟩
  ⟨month, st.cellData, st.emitted⟩

/-! ### login, fetch_next_page_html, main -/

/-- The exceptions the driver interactions can raise: `WebDriverWait`
timing out (`authenticationTimeout`, the spec's `AuthenticationTimeout`) and
`find_element_by_id` failing (`navigationControlMissing`, the spec's
`NavigationControlMissing`). -/
inductive RunError where
  | authenticationTimeout
  | navigationControlMissing
deriving DecidableEq

/-- Oracle for the Selenium automation channel.
`loginOutcome` is the page source `login` returns, or `none` when one of its
bounded waits expires (the awaited element — in particular the post-login
landmark `calendar_lnkNextMonth` — never becomes present), which raises a
selenium timeout exception.
`nav k` is the page source of the k-th `fetch_next_page_html` call (index 0
is the single next-month click, index `i + 1` the i-th previous-month click),
or `none` when the navigation link cannot be found, which raises. -/
structure Channel where
  loginOutcome : Option RenderedDocument
  nav : Nat → Option RenderedDocument

/-- Outcome of a `main` run: the sequence of `process_response_cal` results
in visitation order, the exception that escaped (if any), and whether
`driver.quit()` was reached. -/
structure RunResult where
  timeline : List ExtractResult
  error : Option RunError
  driverReleased : Bool
deriving DecidableEq

/-- The navigation loop of `main`: for each remaining nav index, fetch the
page (propagating a missing-control exception, which aborts the loop) and
extract it, accumulating results in order. -/
def runLoop (ch : Channel) : List Nat → List ExtractResult →
    List ExtractResult × Option RunError
  | [], acc => (acc, none)
  | i :: rest, acc =>
    match ch.nav i with
    | none => (acc, some RunError.navigationControlMissing)
    | some d => runLoop ch rest (acc ++ [process_response_cal d])

/-- Embeds `main` (lines 174-199) with the literal loop bound `range(24)`
generalized to a parameter `monthsBack` (the source fixes it to 24, see
`runMain`): extract the page `login` returns, then the page after one
next-month click, then `monthsBack` pages after previous-month clicks, and
only after the loop completes call `driver.quit()`.  An exception anywhere
propagates out of `main` without reaching `driver.quit()`. -/
def runMainWith (ch : Channel) (monthsBack : Nat) : RunResult :=
  match ch.loginOutcome with
  | none => ⟨[], some RunError.authenticationTimeout, false⟩
  | some d0 =>
    match runLoop ch (List.range (monthsBack + 1)) [process_response_cal d0] with
    | (acc, some e) => ⟨acc, some e, false⟩
    | (acc, none) => ⟨acc, none, true⟩

/-- The loop bound hard-coded in `main`: `for i in range(24)`. -/
def monthsBackConstant : Nat := 24

/-- `main` as written: `runMainWith` at the source's constant 24. -/
def runMain (ch : Channel) : RunResult := runMainWith ch monthsBackConstant

/-- A flawless channel up to `monthsBack`: login succeeds and every
navigation step up to the last one consumed yields a page. -/
def FlawlessUpTo (ch : Channel) (monthsBack : Nat) : Prop :=
  ch.loginOutcome.isSome = true ∧
    ∀ i, i < monthsBack + 1 → (ch.nav i).isSome = true

/-! ### Concrete documents and channels used in closed statements -/

/-- A heading-less page with one non-empty cell at grid position 1. -/
def docNoHeading : RenderedDocument := ⟨none, [(1, some ['A'])], []⟩

/-- A page whose only non-empty cells sit at grid positions 40 and 42. -/
def docCells40and42 : RenderedDocument :=
  ⟨some "January 2024", [(40, some ['A']), (42, some ['A'])], []⟩

/-- A page whose only non-empty cell sits at grid position 39. -/
def docCell39 : RenderedDocument :=
  ⟨some "January 2024", [(39, some ['A'])], []⟩

/-- A 31-cell month grid in which positions 5 and 17 are absent and every
present cell holds the non-empty text "S". -/
def doc31 : RenderedDocument :=
  ⟨some "January 2024",
   (List.range' 1 31).filterMap
     (fun n => if n = 5 ∨ n = 17 then none else some (n, some ['S'])),
   []⟩

/-- A well-formed page: heading present, one non-empty cell. -/
def goodDoc : RenderedDocument := ⟨some "January 2024", [(1, some ['S'])], []⟩

/-- A page lacking the month heading but holding one non-empty cell. -/
def badDoc : RenderedDocument := ⟨none, [(1, some ['S'])], []⟩

/-- A channel whose login landmark never appears. -/
def chTimeout : Channel := ⟨none, fun _ => none⟩

/-- A flawless channel that always serves `goodDoc`. -/
def chFlawless : Channel := ⟨some goodDoc, fun _ => some goodDoc⟩

/-- A channel that serves `badDoc` (no month heading) on the fourth
previous-month click (nav index 4) and `goodDoc` everywhere else. -/
def chC5 : Channel :=
  ⟨some goodDoc, fun i => if i = 4 then some badDoc else some goodDoc⟩

/-- A channel that serves `badDoc` on every navigation step. -/
def chW5 : Channel := ⟨some goodDoc, fun _ => some badDoc⟩

/-! ### Helper lemmas -/

lemma processCell_day_aligned (doc : RenderedDocument) (month : Option String)
    (st : ExtractState) (cell : Nat)
    (h1 : st.emitted.map (fun e => e.day) = List.range' 1 st.emitted.length)
    (h2 : st.date = st.emitted.length + 1) :
    (processCell doc month st cell).emitted.map (fun e => e.day)
        = List.range' 1 (processCell doc month st cell).emitted.length
      ∧ (processCell doc month st cell).date
        = (processCell doc month st cell).emitted.length + 1 := by
  unfold processCell
  cases findTd doc cell with
  | none => exact ⟨h1, h2⟩
  | some divText =>
    dsimp only
    by_cases he : (normalizeShiftText (divText.getD [])).isEmpty = true
    · rw [if_pos he]
      exact ⟨h1, h2⟩
    · rw [if_neg he]
      dsimp only
      constructor
      · simp only [List.map_append, List.length_append, List.map_cons,
          List.map_nil, List.length_cons, List.length_nil]
        rw [h1, h2, List.range'_1_concat]
        simp [Nat.add_comm]
      · simp only [List.length_append, List.length_cons, List.length_nil]
        omega

lemma foldl_processCell_day (doc : RenderedDocument) (month : Option String) :
    ∀ (cells : List Nat) (st : ExtractState),
    st.emitted.map (fun e => e.day) = List.range' 1 st.emitted.length →
    st.date = st.emitted.length + 1 →
    (cells.foldl (processCell doc month) st).emitted.map (fun e => e.day)
        = List.range' 1 (cells.foldl (processCell doc month) st).emitted.length
      ∧ (cells.foldl (processCell doc month) st).date
        = (cells.foldl (processCell doc month) st).emitted.length + 1 := by
  intro cells
  induction cells with
  | nil => intro st h1 h2; exact ⟨h1, h2⟩
  | cons c rest ih =>
    intro st h1 h2
    have h := processCell_day_aligned doc month st c h1 h2
    exact ih _ h.1 h.2

lemma processCell_month_isNone (doc : RenderedDocument) (st : ExtractState)
    (cell : Nat) (h : st.emitted.all (fun e => e.month.isNone) = true) :
    (processCell doc none st cell).emitted.all
      (fun e => e.month.isNone) = true := by
  unfold processCell
  cases findTd doc cell with
  | none => exact h
  | some divText =>
    dsimp only
    by_cases he : (normalizeShiftText (divText.getD [])).isEmpty = true
    · rw [if_pos he]; exact h
    · rw [if_neg he]
      dsimp only
      rw [List.all_append, h]
      rfl

lemma foldl_processCell_month_isNone (doc : RenderedDocument) :
    ∀ (cells : List Nat) (st : ExtractState),
    st.emitted.all (fun e => e.month.isNone) = true →
    (cells.foldl (processCell doc none) st).emitted.all
      (fun e => e.month.isNone) = true := by
  intro cells
  induction cells with
  | nil => intro st h; exact h
  | cons c rest ih =>
    intro st h
    exact ih _ (processCell_month_isNone doc st c h)

lemma spacedAfterParens_cons (c : Char) (l : List Char)
    (hc : (c == ')') = false) (hl : spacedAfterParens l = true) :
    spacedAfterParens (c :: l) = true := by
  cases l with
  | nil => simp [spacedAfterParens, hc]
  | cons d rest =>
    simp only [spacedAfterParens, hc, Bool.false_eq_true, not_false_eq_true,
      Bool.not_false, Bool.true_or, Bool.true_and]
    exact hl

lemma spacedAfterParens_insert (l : List Char) :
    spacedAfterParens (insertSpaceAfterParens l) = true := by
  induction l with
  | nil => rfl
  | cons c rest ih =>
    by_cases hc : c = ')'
    · subst hc
      rw [insertSpaceAfterParens, if_pos rfl, spacedAfterParens,
        spacedAfterParens_cons ' ' _ (by decide) ih]
      decide
    · rw [insertSpaceAfterParens, if_neg hc]
      exact spacedAfterParens_cons c _ (by simp [hc]) ih

lemma stripSpaceAfterParens_cons_ne (c : Char) (l : List Char)
    (hc : c ≠ ')') :
    stripSpaceAfterParens (c :: l) = c :: stripSpaceAfterParens l := by
  cases l with
  | nil => rfl
  | cons d rest =>
    rw [stripSpaceAfterParens]
    rw [if_neg (fun hand => hc hand.1)]

lemma stripSpaceAfterParens_insert (l : List Char) :
    stripSpaceAfterParens (insertSpaceAfterParens l) = l := by
  induction l with
  | nil => rfl
  | cons c rest ih =>
    by_cases hc : c = ')'
    · subst hc
      rw [insertSpaceAfterParens, if_pos rfl]
      show stripSpaceAfterParens (')' :: ' ' :: insertSpaceAfterParens rest)
          = ')' :: rest
      rw [stripSpaceAfterParens, if_pos ⟨rfl, rfl⟩, ih]
    · rw [insertSpaceAfterParens, if_neg hc,
        stripSpaceAfterParens_cons_ne c _ hc, ih]

lemma contains_of_append_paren (l r : List Char) (c : Char) :
    (l ++ ')' :: c :: r).contains ')' = true := by
  simp

lemma runLoop_flawless (ch : Channel) :
    ∀ (idxs : List Nat) (acc : List ExtractResult),
    (∀ i ∈ idxs, (ch.nav i).isSome = true) →
    runLoop ch idxs acc =
      (acc ++ idxs.map (fun i => process_response_cal ((ch.nav i).getD emptyDoc)),
       none) := by
  intro idxs
  induction idxs with
  | nil => intro acc _; simp [runLoop]
  | cons i rest ih =>
    intro acc h
    have hi : (ch.nav i).isSome = true := h i (List.mem_cons_self i rest)
    cases hnav : ch.nav i with
    | none => rw [hnav] at hi; simp at hi
    | some d =>
      simp only [runLoop, hnav]
      rw [ih _ (fun j hj => h j (List.mem_cons_of_mem i hj))]
      simp [hnav]

lemma runMainWith_flawless (ch : Channel) (monthsBack : Nat)
    (h : FlawlessUpTo ch monthsBack) :
    runMainWith ch monthsBack =
      ⟨process_response_cal (ch.loginOutcome.getD emptyDoc) ::
          (List.range (monthsBack + 1)).map
            (fun i => process_response_cal ((ch.nav i).getD emptyDoc)),
        none, true⟩ := by
  obtain ⟨h1, h2⟩ := h
  cases hlo : ch.loginOutcome with
  | none => rw [hlo] at h1; simp at h1
  | some d0 =>
    simp only [runMainWith, hlo]
    rw [runLoop_flawless ch _ _ (fun i hi => h2 i (List.mem_range.mp hi))]
    simp

/-! ### Claim theorems -/

/-- C1 (corrected), counterexample: for the concrete heading-less document
`docNoHeading`, `process_response_cal` does not fail and does emit a DayShift
line, refuting the claim that a missing month heading yields an
`InvalidMonthPage` error with no emitted DayShift data. -/
theorem c1_counterexample :
    docNoHeading.monthHeading = none ∧
    (process_response_cal docNoHeading).emitted.length = 1 ∧
    (process_response_cal docNoHeading).emitted ≠ [] := by
  decide

/-- C1 (corrected), amended claim: for every rendered document in which the
month-heading element is absent, `process_response_cal` proceeds without
failing, records the month label `none`, and every DayShift line it emits
carries the month label `none`. -/
theorem c1_amended (cells : List (Nat × Option (List Char)))
    (inputs : List (String × Option (List Char))) :
    (process_response_cal ⟨none, cells, inputs⟩).month = none ∧
    (process_response_cal ⟨none, cells, inputs⟩).emitted.all
      (fun e => e.month.isNone) = true := by
  refine ⟨rfl, ?_⟩
  exact foldl_processCell_month_isNone _ scanRange ⟨1, [], []⟩ rfl

/-- C2 (corrected), counterexample: on the empty document (no input fields at
all), `get_view_event` raises `AttributeError` instead of returning a
NotFound result, refuting the claim that the lookups never crash. -/
theorem c2_counterexample :
    get_view_event emptyDoc = Except.error PyError.attributeError := by
  rfl

/-- C2 (corrected), amended claim: `get_view_event` raises `AttributeError`
exactly when the `__VIEWSTATE` or the `__EVENTVALIDATION` input field is
absent from the document; on malformed or empty input the lookups therefore
crash rather than yielding a NotFound result. -/
theorem c2_amended (doc : RenderedDocument) :
    get_view_event doc = Except.error PyError.attributeError ↔
      (findInput doc "__VIEWSTATE" = none ∨
        findInput doc "__EVENTVALIDATION" = none) := by
  unfold get_view_event
  cases h1 : findInput doc "__VIEWSTATE" with
  | none => simp
  | some v =>
    cases h2 : findInput doc "__EVENTVALIDATION" with
    | none => simp
    | some e => simp

/-- C3 (corrected), counterexample: grid positions 40 and 42 are never
scanned — a document whose only non-empty cells sit at positions 40 and 42
yields no emission, while position 39 is scanned — refuting the claim that
the upper bound of the scanned range exceeds 42. -/
theorem c3_counterexample :
    (process_response_cal docCells40and42).emitted = [] ∧
    (process_response_cal docCell39).emitted.length = 1 := by
  decide

/-- C3 (corrected), amended claim: the extraction scans calendar cell
identifiers at grid positions 1..39 in strictly ascending order; 39 exceeds
the 31 days of the longest month but not the 42 cells of a six-week grid
(positions 40 and 42 are outside the scanned range). -/
theorem c3_amended :
    scanRange.length = 39 ∧
    scanRange.head? = some 1 ∧
    scanRange.getLast? = some 39 ∧
    List.Pairwise (· < ·) scanRange ∧
    scanRange.contains 40 = false ∧
    scanRange.contains 42 = false ∧
    31 < 39 ∧ 39 < 42 := by
  decide

/-- C6 (confirmed): for every input document, the day numbers attached to the
DayShift lines emitted by one `process_response_cal` call are exactly
1, 2, ..., k in order — strictly increasing, starting at 1, incrementing by
exactly one per emitted line, with no repeats. -/
theorem c6_confirmed (doc : RenderedDocument) :
    (process_response_cal doc).emitted.map (fun e => e.day) =
      List.range' 1 (process_response_cal doc).emitted.length := by
  unfold process_response_cal
  dsimp only
  exact (foldl_processCell_day doc doc.monthHeading scanRange ⟨1, [], []⟩
    rfl rfl).1

/-- C7 (confirmed): for every shift text in which a `)` is directly followed
by another character, the normalization step produces an output in which
every `)` is immediately followed by a space, and removing one space after
each `)` recovers the input — i.e. a space is inserted immediately after
every occurrence of `)`. -/
theorem c7_confirmed (s : List Char)
    (h : ∃ l c r, s = l ++ ')' :: c :: r) :
    spacedAfterParens (normalizeShiftText s) = true ∧
    stripSpaceAfterParens (normalizeShiftText s) = s := by
  obtain ⟨l, c, r, rfl⟩ := h
  rw [normalizeShiftText, if_pos (contains_of_append_paren l r c)]
  exact ⟨spacedAfterParens_insert _, stripSpaceAfterParens_insert _⟩

/-- Witness for C7 at the concrete input `")A"`. -/
theorem c7_witness :
    (∃ l c r, [')', 'A'] = l ++ ')' :: c :: r) ∧
    spacedAfterParens (normalizeShiftText [')', 'A']) = true :=
  ⟨⟨[], 'A', [], rfl⟩, (c7_confirmed [')', 'A'] ⟨[], 'A', [], rfl⟩).1⟩

/-- C8 (confirmed): on the 31-cell grid with positions 5 and 17 absent and
every present cell non-empty, extraction emits exactly 29 DayShift lines
numbered 1..29, none of which was read from grid position 5 or 17. -/
theorem c8_confirmed :
    (process_response_cal doc31).emitted.length = 29 ∧
    (process_response_cal doc31).emitted.map (fun e => e.day)
      = List.range' 1 29 ∧
    (process_response_cal doc31).emitted.all
      (fun e => !(e.cell == 5) && !(e.cell == 17)) = true := by
  decide

/-- C4 (corrected), counterexample: on a channel whose login landmark never
appears, the run does terminate with the timeout error, but the webdriver is
not released — refuting the claim that the AutomationSession is released on
this failure path. -/
theorem c4_counterexample :
    (runMain chTimeout).error = some RunError.authenticationTimeout ∧
    (runMain chTimeout).driverReleased = false :=
  ⟨rfl, rfl⟩

/-- C4 (corrected), amended claim: if the post-login landmark never becomes
present within the bounded wait's timeout, the run terminates with the
timeout error having produced no timeline, and the webdriver is **not**
released on this path (`driver.quit()` is reached only after the loop
completes normally). -/
theorem c4_amended (nav : Nat → Option RenderedDocument) :
    runMain ⟨none, nav⟩ =
      ⟨[], some RunError.authenticationTimeout, false⟩ :=
  rfl

/-- C5 (corrected), counterexample: on a run in which the fourth
previous-month click serves a page lacking the month heading (with one
non-empty cell), the assembler still performs exactly 26 extractions and the
affected step's extraction emits a DayShift line — no re-extraction happens
and no gap is recorded, refuting the claim. -/
theorem c5_counterexample :
    badDoc.monthHeading = none ∧
    (runMain chC5).timeline[5]? = some (process_response_cal badDoc) ∧
    (process_response_cal badDoc).emitted.length = 1 ∧
    (runMain chC5).timeline.length = 26 := by
  decide

/-- C5 (corrected), amended claim: the assembler performs no re-extraction
and records no gap: on a flawless channel each navigated document — whether
or not it carries a month heading — is extracted exactly once, its result
(including any emitted DayShift lines) is placed at its step's position in
the timeline, and all subsequent months are still processed (the timeline
retains all monthsBack + 2 entries). -/
theorem c5_amended (ch : Channel) (monthsBack i : Nat)
    (h : FlawlessUpTo ch monthsBack) (hi : i < monthsBack + 1) :
    (runMainWith ch monthsBack).timeline[i + 1]? =
      (ch.nav i).map process_response_cal ∧
    (runMainWith ch monthsBack).timeline.length = monthsBack + 2 := by
  have hs := h.2 i hi
  rw [runMainWith_flawless ch monthsBack h]
  cases hnav : ch.nav i with
  | none => rw [hnav] at hs; simp at hs
  | some d =>
    constructor
    · simp [List.getElem?_range hi, hnav]
    · simp

/-- Witness for C5 at `monthsBack = 1`, step `i = 0`, on a channel serving a
heading-less page on every navigation step. -/
theorem c5_witness :
    FlawlessUpTo chW5 1 ∧ 0 < 1 + 1 ∧
    (runMainWith chW5 1).timeline[0 + 1]? =
      (chW5.nav 0).map process_response_cal := by
  have h : FlawlessUpTo chW5 1 := ⟨rfl, fun i _ => rfl⟩
  exact ⟨h, by decide, (c5_amended chW5 1 0 h (by decide)).1⟩

/-- C9 (confirmed): with the loop bound generalized to `monthsBack` (the
source fixes it at 24), a run over a flawless channel performs exactly
`monthsBack + 2` month extractions — the page `login` returns, one
forced-forward month, then `monthsBack` retreated months — completes without
error, releases the driver, and lists the results in visitation order. -/
theorem c9_confirmed (ch : Channel) (monthsBack : Nat)
    (h : FlawlessUpTo ch monthsBack) :
    (runMainWith ch monthsBack).error = none ∧
    (runMainWith ch monthsBack).driverReleased = true ∧
    (runMainWith ch monthsBack).timeline.length = monthsBack + 2 ∧
    (runMainWith ch monthsBack).timeline =
      process_response_cal (ch.loginOutcome.getD emptyDoc) ::
        (List.range (monthsBack + 1)).map
          (fun i => process_response_cal ((ch.nav i).getD emptyDoc)) := by
  rw [runMainWith_flawless ch monthsBack h]
  refine ⟨rfl, rfl, ?_, rfl⟩
  simp

/-- Witness for C9 at `monthsBack = 3` on a flawless channel: exactly five
month extractions. -/
theorem c9_witness :
    FlawlessUpTo chFlawless 3 ∧
    (runMainWith chFlawless 3).timeline.length = 3 + 2 := by
  have h : FlawlessUpTo chFlawless 3 := ⟨rfl, fun i _ => rfl⟩
  exact ⟨h, (c9_confirmed chFlawless 3 h).2.2.1⟩

/-- C10 (confirmed): `make_soup` is total over both accepted input shapes —
a Response-like input has its `.text` parsed, and a raw string (whose `.text`
access raises `AttributeError`, which is caught) is parsed itself; neither
shape propagates an exception. -/
theorem c10_confirmed :
    (∀ t, make_soup (SoupInput.withText t) = Except.ok (parseHtml t)) ∧
    (∀ s, make_soup (SoupInput.rawString s) = Except.ok (parseHtml s)) :=
  ⟨fun _ => rfl, fun _ => rfl⟩

end MicRoster
